import Mathlib

/-!
Shallow embedding of src/application.py (a Flask events backend over MySQL).

Modelling conventions:
  * Python exceptions are the Exc sum type; stateful code is explicit state
    passing on St, so a function of the source becomes St → Except Exc α × St.
  * The process environment (DB_HOST, DB_USER, DB_PASSWORD, DB_NAME) is a
    Config of optional strings; os.environ.get returning a falsy value
    (absent key or empty string) is envFalsy.
  * Database connectivity is a parameter connectOk : Nat → Bool consulted at
    each successive connection attempt, so availability may change between
    attempts. Connections are numbered; St.openConns tracks the ones not yet
    closed, St.connAttempts counts pymysql.connect calls.
  * MySQL statement semantics are embedded where the claims need them: the
    CREATE TABLE IF NOT EXISTS step sets tableExists, INSERT appends a row
    with AUTO_INCREMENT id, and the SELECT of fetch_data_from_db is embedded
    as its token list, run through a parser for the MySQL select-list grammar
    (the source text at lines 136-139 is missing the comma between the
    aliased DATE_FORMAT expression and the location column).
  * JSON response bodies are the Body sum type, one constructor per object
    shape that the handlers build with jsonify.
-/

namespace EventsBackend

/-- The four environment values read by get_db_connection (lines 69-74). -/
structure Config where
  DB_HOST : Option String
  DB_USER : Option String
  DB_PASSWORD : Option String
  DB_NAME : Option String
deriving DecidableEq

/-- os.environ.get for the modelled keys. -/
def envGet (cfg : Config) (v : String) : Option String :=
  if v = "DB_HOST" then cfg.DB_HOST
  else if v = "DB_USER" then cfg.DB_USER
  else if v = "DB_PASSWORD" then cfg.DB_PASSWORD
  else if v = "DB_NAME" then cfg.DB_NAME
  else none

/-- Python falsiness of os.environ.get(var): None (absent) or the empty string. -/
def envFalsy : Option String → Bool
  | none => true
  | some s => s.isEmpty

/-- required_vars of line 69. -/
def required_vars : List String := ["DB_HOST", "DB_USER", "DB_PASSWORD", "DB_NAME"]

/-- Line 70: missing = [var for var in required_vars if not os.environ.get(var)]. -/
def missingEnv (cfg : Config) : List String :=
  required_vars.filter (fun v => envFalsy (envGet cfg v))

/-- The Python exceptions that the functions of application.py can raise:
EnvironmentError (line 74), ConnectionError (line 84), RuntimeError (line 106),
pymysql ProgrammingError (raised by cursor.execute on an invalid statement),
and NotImplementedError (caught at line 26 but raised nowhere). -/
inductive Exc where
  | environmentError (msg : String)
  | connectionError (msg : String)
  | runtimeError (msg : String)
  | programmingError (msg : String)
  | notImplementedError (msg : String)
deriving DecidableEq

/-- Python str(e), used for the detail field of 500 responses. -/
def Exc.str : Exc → String
  | Exc.environmentError m => m
  | Exc.connectionError m => m
  | Exc.runtimeError m => m
  | Exc.programmingError m => m
  | Exc.notImplementedError m => m

/-- A calendar date as MySQL stores a DATE value. -/
structure Date where
  year : Nat
  month : Nat
  day : Nat
deriving DecidableEq

/-- A persisted row of the events table (schema of lines 92-99). -/
structure EventRow where
  id : Nat
  title : String
  description : Option String
  image_url : Option String
  date : Option Date
  location : Option String
deriving DecidableEq

/-- The modelled world: the events table (existence flag, rows, AUTO_INCREMENT
counter) and the connection bookkeeping. -/
structure St where
  tableExists : Bool
  rows : List EventRow
  nextId : Nat
  nextConnId : Nat
  openConns : List Nat
  connAttempts : Nat
deriving DecidableEq

/-- Closing a connection removes it from the open set. -/
def closeConn (c : Nat) (st : St) : St :=
  { st with openConns := st.openConns.erase c }

/-- get_db_connection (lines 60-84): check the four environment values, raise
EnvironmentError naming the missing ones without attempting to connect;
otherwise attempt pymysql.connect once, which yields a fresh connection or
raises ConnectionError. -/
def get_db_connection (cfg : Config) (connectOk : Nat → Bool) (st : St) :
    Except Exc Nat × St :=
  let miss := missingEnv cfg
  if miss.isEmpty then
    let st1 : St := { st with connAttempts := st.connAttempts + 1 }
    if connectOk st.connAttempts then
      (Except.ok st.nextConnId,
        { st1 with nextConnId := st.nextConnId + 1,
                   openConns := st.nextConnId :: st.openConns })
    else
      (Except.error (Exc.connectionError "Failed to connect to the database"), st1)
  else
    (Except.error (Exc.environmentError
        ("Missing environment variables: " ++ String.intercalate ", " miss)), st)

/-- create_db_table (lines 86-106). Line 87 acquires a connection that is
immediately shadowed by the with-managed acquisition of line 89 and is never
closed. The exception of the line-87 acquisition propagates as is (it is
outside the try); any failure inside the try is wrapped in RuntimeError.
The CREATE TABLE IF NOT EXISTS statement itself is idempotent and succeeds;
the with block closes the second connection on exit. -/
def create_db_table (cfg : Config) (connectOk : Nat → Bool) (st : St) :
    Except Exc Unit × St :=
  match get_db_connection cfg connectOk st with
  | (Except.error e, st1) => (Except.error e, st1)
  | (Except.ok _c1, st1) =>
    match get_db_connection cfg connectOk st1 with
    | (Except.error e, st2) =>
        (Except.error (Exc.runtimeError ("Table creation failed: " ++ e.str)), st2)
    | (Except.ok c2, st2) =>
        (Except.ok (), closeConn c2 { st2 with tableExists := true })

/-- The JSON creation payload as the handler reads it: payload.get of the five
known keys, each absent or a string. -/
structure Payload where
  title : Option String
  date : Option String
  description : Option String
  image_url : Option String
  location : Option String
deriving DecidableEq

/-- The empty JSON object that a missing or unparseable body is replaced by
(line 36: request.get_json(force=True, silent=True) or \x7b\x7d). -/
def emptyPayload : Payload := ⟨none, none, none, none, none⟩

/-- Python truthiness of payload.get(key) for an optional string value. -/
def truthy : Option String → Bool
  | none => false
  | some s => !s.isEmpty

/-- Day count of a month in the Gregorian calendar (MySQL validates DATE
literals against it). -/
def daysInMonth (y m : Nat) : Nat :=
  if m = 2 then (if (y % 4 = 0 ∧ ¬ y % 100 = 0) ∨ y % 400 = 0 then 29 else 28)
  else if m = 4 ∨ m = 6 ∨ m = 9 ∨ m = 11 then 30 else 31

/-- Numeric value of a nonempty digit sequence. -/
def digitsToNat : Nat → List Char → Option Nat
  | acc, [] => some acc
  | acc, c :: cs =>
      if c.isDigit then digitsToNat (acc * 10 + (c.toNat - 48)) cs else none

/-- Splitting a character list at every dash. -/
def splitDashAux : List Char → List Char → List (List Char)
  | [], cur => [cur.reverse]
  | c :: cs, cur =>
      if c = '-' then cur.reverse :: splitDashAux cs [] else splitDashAux cs (c :: cur)

/-- MySQL parsing of a DATE literal of the dash-delimited form YYYY-MM-DD:
three numeric fields, month and day within calendar range. -/
def parseDate (s : String) : Option Date :=
  match splitDashAux s.data [] with
  | [ys, ms, ds] =>
    match digitsToNat 0 ys, digitsToNat 0 ms, digitsToNat 0 ds with
    | some y, some m, some d =>
        if 1 ≤ m ∧ m ≤ 12 ∧ 1 ≤ d ∧ d ≤ daysInMonth y m ∧ y ≤ 9999 then
          some ⟨y, m, d⟩
        else none
    | _, _, _ => none
  | _ => none

/-- Execution of the INSERT of lines 114-124: the five column values are the
payload.get results; title and date are NOT NULL and date must parse as a
DATE, otherwise MySQL raises; on success one row is appended with the next
AUTO_INCREMENT id. -/
def insertRow (p : Payload) (st : St) : Except Exc Unit × St :=
  match p.title, p.date with
  | some t, some dstr =>
    match parseDate dstr with
    | some d =>
        (Except.ok (),
          { st with
              rows := st.rows ++
                [{ id := st.nextId, title := t, description := p.description,
                   image_url := p.image_url, date := some d, location := p.location }],
              nextId := st.nextId + 1 })
    | none => (Except.error (Exc.programmingError "Incorrect DATE value"), st)
  | _, _ => (Except.error (Exc.programmingError "Column cannot be null"), st)

/-- insert_data_into_db (lines 108-127): ensure the schema, acquire a
connection, run the INSERT and commit, and close that connection in the
finally block on success and failure alike. -/
def insert_data_into_db (p : Payload) (cfg : Config) (connectOk : Nat → Bool)
    (st : St) : Except Exc Unit × St :=
  match create_db_table cfg connectOk st with
  | (Except.error e, st1) => (Except.error e, st1)
  | (Except.ok _, st1) =>
    match get_db_connection cfg connectOk st1 with
    | (Except.error e, st2) => (Except.error e, st2)
    | (Except.ok c, st2) =>
      match insertRow p st2 with
      | (r, st3) => (r, closeConn c st3)

/-- Tokens of a MySQL select list. -/
inductive SqlTok where
  | ident (s : String)
  | comma
  | kwAs
  | fnExpr (s : String)
deriving DecidableEq

/-- The select list of the query of fetch_data_from_db, token by token as
written at lines 136-139. There is no comma between the aliased DATE_FORMAT
expression and the trailing location identifier. -/
def selectListTokens : List SqlTok :=
  [SqlTok.ident "id", SqlTok.comma,
   SqlTok.ident "title", SqlTok.comma,
   SqlTok.ident "description", SqlTok.comma,
   SqlTok.ident "image_url", SqlTok.comma,
   SqlTok.fnExpr "DATE_FORMAT(date, %a, %d %b %Y 00:00:00 GMT)",
   SqlTok.kwAs, SqlTok.ident "date",
   SqlTok.ident "location"]

/-- The same select list with the missing comma restored, the intended column
list named by the spec (section 9). -/
def intendedSelectTokens : List SqlTok :=
  [SqlTok.ident "id", SqlTok.comma,
   SqlTok.ident "title", SqlTok.comma,
   SqlTok.ident "description", SqlTok.comma,
   SqlTok.ident "image_url", SqlTok.comma,
   SqlTok.fnExpr "DATE_FORMAT(date, %a, %d %b %Y 00:00:00 GMT)",
   SqlTok.kwAs, SqlTok.ident "date", SqlTok.comma,
   SqlTok.ident "location"]

/-- One parsed select item: a base column or expression and its alias, if any. -/
structure SelItem where
  base : String
  aliasName : Option String
deriving DecidableEq

/-- After a primary expression, MySQL accepts AS followed by an alias, a bare
alias identifier, or nothing. -/
def parseAliasTail (base : String) : List SqlTok → SelItem × List SqlTok
  | SqlTok.kwAs :: SqlTok.ident a :: rest => (⟨base, some a⟩, rest)
  | SqlTok.ident a :: rest => (⟨base, some a⟩, rest)
  | rest => (⟨base, none⟩, rest)

/-- One select item: an identifier or function expression with optional alias. -/
def parseSelItem : List SqlTok → Option (SelItem × List SqlTok)
  | SqlTok.ident s :: rest => some (parseAliasTail s rest)
  | SqlTok.fnExpr s :: rest => some (parseAliasTail s rest)
  | _ => none

/-- Remaining select items: end of input, or a comma followed by an item. -/
def parseSelRest : Nat → List SelItem → List SqlTok → Option (List SelItem)
  | _, acc, [] => some acc.reverse
  | 0, _, _ => none
  | Nat.succ fuel, acc, SqlTok.comma :: rest =>
    match parseSelItem rest with
    | some (it, rest2) => parseSelRest fuel (it :: acc) rest2
    | none => none
  | Nat.succ _, _, _ => none

/-- The MySQL select-list grammar: item (comma item)*. -/
def parseSelectList (toks : List SqlTok) : Option (List SelItem) :=
  match parseSelItem toks with
  | some (it, rest) => parseSelRest toks.length [it] rest
  | none => none

/-- Zeller congruence for the Gregorian calendar; 0 means Saturday. -/
def dayOfWeekZ (y m d : Nat) : Nat :=
  let yq := if m ≤ 2 then y - 1 else y
  let mq := if m ≤ 2 then m + 12 else m
  let k := yq % 100
  let j := yq / 100
  (d + (13 * (mq + 1)) / 5 + k + k / 4 + j / 4 + 5 * j) % 7

/-- MySQL abbreviated weekday names, indexed by the Zeller value. -/
def dayAbbrev (h : Nat) : String :=
  ["Sat", "Sun", "Mon", "Tue", "Wed", "Thu", "Fri"].getD h "Sat"

/-- MySQL abbreviated month names. -/
def monthAbbrev (m : Nat) : String :=
  ["Jan", "Feb", "Mar", "Apr", "May", "Jun",
   "Jul", "Aug", "Sep", "Oct", "Nov", "Dec"].getD (m - 1) "Jan"

/-- Zero padding to two digits, as the MySQL %d specifier prints a day. -/
def pad2 (n : Nat) : String := if n < 10 then "0" ++ toString n else toString n

/-- Zero padding to four digits, as the MySQL %Y specifier prints a year. -/
def pad4 (n : Nat) : String :=
  if n < 10 then "000" ++ toString n
  else if n < 100 then "00" ++ toString n
  else if n < 1000 then "0" ++ toString n
  else toString n

/-- The DATE_FORMAT expression of line 138 applied to one stored date: the
format string renders abbreviated weekday, comma, two-digit day, abbreviated
month, four-digit year and the literal text 00:00:00 GMT; DATE_FORMAT of NULL
is NULL. -/
def renderDate : Option Date → Option String
  | none => none
  | some d =>
      some (dayAbbrev (dayOfWeekZ d.year d.month d.day) ++ ", " ++ pad2 d.day ++ " "
        ++ monthAbbrev d.month ++ " " ++ pad4 d.year ++ " 00:00:00 GMT")

/-- A row as the DictCursor would return it for the intended column list: the
date column aliased to its DATE_FORMAT rendering. -/
structure RowOut where
  id : Nat
  title : String
  description : Option String
  image_url : Option String
  date : Option String
  location : Option String
deriving DecidableEq

/-- Output form of a stored row. -/
def rowOut (r : EventRow) : RowOut :=
  { id := r.id, title := r.title, description := r.description,
    image_url := r.image_url, date := renderDate r.date, location := r.location }

/-- Sort key placing dates ascending with NULL first, as ORDER BY ASC does. -/
def dateKey : Option Date → Nat
  | none => 0
  | some d => (d.year * 16 + d.month) * 32 + d.day + 1

/-- Row comparison of the ORDER BY clause: date ascending, then id ascending. -/
def rowLe (r1 r2 : EventRow) : Bool :=
  dateKey r1.date < dateKey r2.date ||
    (dateKey r1.date = dateKey r2.date && r1.id ≤ r2.id)

/-- Insertion into a sorted list. -/
def insertSorted (r : EventRow) : List EventRow → List EventRow
  | [] => [r]
  | x :: xs => if rowLe r x then r :: x :: xs else x :: insertSorted r xs

/-- Rows sorted by the ORDER BY clause of the query. -/
def sortRows (l : List EventRow) : List EventRow :=
  l.foldr insertSorted []

/-- fetch_data_from_db (lines 129-149): ensure the schema, acquire a
connection, then cursor.execute has MySQL parse the SELECT statement; the
select list embedded in selectListTokens does not parse (missing comma), so
execute raises a ProgrammingError; the finally block closes the connection
either way. The success branch, reachable only for a parseable select list,
would return the rows of the table ordered by date then id, each with the
date column rendered by DATE_FORMAT. -/
def fetch_data_from_db (cfg : Config) (connectOk : Nat → Bool) (st : St) :
    Except Exc (List RowOut) × St :=
  match create_db_table cfg connectOk st with
  | (Except.error e, st1) => (Except.error e, st1)
  | (Except.ok _, st1) =>
    match get_db_connection cfg connectOk st1 with
    | (Except.error e, st2) => (Except.error e, st2)
    | (Except.ok c, st2) =>
      match parseSelectList selectListTokens with
      | none =>
          (Except.error (Exc.programmingError "1064 You have an error in your SQL syntax"),
           closeConn c st2)
      | some _ =>
          (Except.ok ((sortRows st2.rows).map rowOut), closeConn c st2)

/-- The JSON bodies the handlers build with jsonify, one constructor per
object shape. -/
inductive Body where
  | statusObj (status : String)
  | errObj (error : String)
  | errDetailObj (error : String) (detail : String)
  | messageObj (message : String)
  | arrBody (rows : List RowOut)
  | dataObj (rows : List RowOut)
deriving DecidableEq

/-- An HTTP response: status code and JSON body. -/
structure Response where
  status : Nat
  body : Body
deriving DecidableEq

/-- health (lines 13-18): constant 200 response, no state read or written. -/
def health (_cfg : Config) (_connectOk : Nat → Bool) (st : St) : Response × St :=
  ({ status := 200, body := Body.statusObj "healthy" }, st)

/-- list_events (lines 21-30): 200 with the fetched array, 501 on
NotImplementedError, 500 with detail on any other exception. -/
def list_events (cfg : Config) (connectOk : Nat → Bool) (st : St) : Response × St :=
  match fetch_data_from_db cfg connectOk st with
  | (Except.ok rows, st1) => ({ status := 200, body := Body.arrBody rows }, st1)
  | (Except.error (Exc.notImplementedError m), st1) =>
      ({ status := 501, body := Body.errObj m }, st1)
  | (Except.error e, st1) =>
      ({ status := 500, body := Body.errDetailObj "During events retrieval" e.str }, st1)

/-- A single quote character, kept out of string literals as an escape. -/
def sq : String := "\x27"

/-- The 400 message of line 41. -/
def missingFieldsMsg : String :=
  "Missing required fields: " ++ sq ++ "title" ++ sq ++ " and " ++ sq ++ "date" ++ sq

/-- create_event (lines 33-48): the parsed body or the empty object, the
truthiness check on title and date giving 400 before any persistence, then
the insert giving 201 on success; any exception maps to 500 with detail. -/
def create_event (body : Option Payload) (cfg : Config) (connectOk : Nat → Bool)
    (st : St) : Response × St :=
  let payload := body.getD emptyPayload
  if truthy payload.title && truthy payload.date then
    match insert_data_into_db payload cfg connectOk st with
    | (Except.ok _, st1) =>
        ({ status := 201, body := Body.messageObj "Event created successfully" }, st1)
    | (Except.error e, st1) =>
        ({ status := 500, body := Body.errDetailObj "During event creation" e.str }, st1)
  else
    ({ status := 400, body := Body.errObj missingFieldsMsg }, st)

/-- get_data (lines 51-58): 200 with the data object, 500 with detail on any
exception; no 501 branch. -/
def get_data (cfg : Config) (connectOk : Nat → Bool) (st : St) : Response × St :=
  match fetch_data_from_db cfg connectOk st with
  | (Except.ok rows, st1) => ({ status := 200, body := Body.dataObj rows }, st1)
  | (Except.error e, st1) =>
      ({ status := 500, body := Body.errDetailObj "During data retrieval" e.str }, st1)

/-- Targets a Python annotated statement can have. CPython accepts a name, an
attribute or a subscript as annotation target and rejects anything else at
compile time with the message: illegal target for annotation. -/
inductive AnnTarget where
  | nameT (s : String)
  | attrT (base fieldName : String)
  | subscrT (base : String)
  | strLitT (s : String)
deriving DecidableEq

/-- The CPython rule for annotation targets. -/
def validAnnTarget : AnnTarget → Bool
  | AnnTarget.nameT _ => true
  | AnnTarget.attrT _ _ => true
  | AnnTarget.subscrT _ => true
  | AnnTarget.strLitT _ => false

/-- Statement shapes of the try body of fetch_data_from_db. -/
inductive PyStmt where
  | assignStmt (target : String)
  | callStmt (callee : String)
  | annAssignStmt (target : AnnTarget)
  | returnStmt
deriving DecidableEq

/-- A statement survives byte compilation exactly when any annotation target
in it is legal. -/
def stmtValid : PyStmt → Bool
  | PyStmt.annAssignStmt t => validAnnTarget t
  | _ => true

/-- Line 143 of application.py: a statement of the shape string-literal, colon,
conditional expression, which CPython parses as an annotated assignment whose
target is the string literal date. -/
def line143 : PyStmt := PyStmt.annAssignStmt (AnnTarget.strLitT "date")

/-- The statements of the with block of fetch_data_from_db (lines 134-147) as
written: the sql assignment, line 143, the execute call, the fetchall
assignment, the return. -/
def fetchBodyStmts : List PyStmt :=
  [PyStmt.assignStmt "sql", line143, PyStmt.callStmt "cursor.execute",
   PyStmt.assignStmt "rows", PyStmt.returnStmt]

/-- The same statements with line 143 removed. -/
def fetchBodyStmtsWithoutLine : List PyStmt :=
  [PyStmt.assignStmt "sql", PyStmt.callStmt "cursor.execute",
   PyStmt.assignStmt "rows", PyStmt.returnStmt]

/-- A module loads only when every statement in it byte-compiles. -/
def moduleLoads (stmts : List PyStmt) : Bool := stmts.all stmtValid

/-- Observable behaviour of one operation (GET /health) of the program whose
fetch body is the given statement list: when the module fails to load, no
handler is ever served. -/
def serveHealth (stmts : List PyStmt) (cfg : Config) (connectOk : Nat → Bool)
    (st : St) : Option (Response × St) :=
  if moduleLoads stmts then some (health cfg connectOk st) else none

/-- A complete configuration. -/
def goodCfg : Config := ⟨some "h", some "u", some "p", some "d"⟩

/-- An empty configuration: all four values absent. -/
def noCfg : Config := ⟨none, none, none, none⟩

/-- A database that accepts every connection attempt. -/
def okAll : Nat → Bool := fun _ => true

/-- The initial world: no table, no rows, AUTO_INCREMENT at 1, no connections. -/
def st0 : St :=
  { tableExists := false, rows := [], nextId := 1, nextConnId := 0,
    openConns := [], connAttempts := 0 }

/-- The end-to-end example payload of the spec (section 8). -/
def launchPayload : Payload :=
  { title := some "Launch", date := some "2024-07-01",
    description := none, image_url := none, location := none }

/-- A payload whose title is absent. -/
def noTitlePayload : Payload :=
  { title := none, date := some "2024-07-01",
    description := none, image_url := none, location := none }

/-- Whether an exception is the NotImplementedError that the 501 branch of
list_events is reserved for. -/
def excIsNotImplemented : Exc → Bool
  | Exc.notImplementedError _ => true
  | _ => false

/-- Whether a fetch outcome carries a NotImplementedError. -/
def resultNIE : Except Exc (List RowOut) × St → Bool
  | (Except.error e, _) => excIsNotImplemented e
  | (Except.ok _, _) => false

/-- get_db_connection has exactly three outcomes: EnvironmentError with the
state untouched, ConnectionError with only the attempt counter advanced, or a
fresh open connection. -/
lemma gdc_cases (cfg : Config) (connectOk : Nat → Bool) (st : St) :
    get_db_connection cfg connectOk st
        = (Except.error (Exc.environmentError
            ("Missing environment variables: "
              ++ String.intercalate ", " (missingEnv cfg))), st)
    ∨ get_db_connection cfg connectOk st
        = (Except.error (Exc.connectionError "Failed to connect to the database"),
           { st with connAttempts := st.connAttempts + 1 })
    ∨ get_db_connection cfg connectOk st
        = (Except.ok st.nextConnId,
           { st with connAttempts := st.connAttempts + 1,
                     nextConnId := st.nextConnId + 1,
                     openConns := st.nextConnId :: st.openConns }) := by
  unfold get_db_connection
  by_cases h1 : (missingEnv cfg).isEmpty
  · by_cases h2 : connectOk st.connAttempts
    · right; right; simp [h1, h2]
    · right; left; simp [h1, h2]
  · left; simp [h1]

/-- The schema-ensuring step either leaves the set of open connections alone
(no connection was acquired) or leaves exactly the line-87 connection open. -/
lemma create_db_table_conns (cfg : Config) (connectOk : Nat → Bool) (st : St) :
    (create_db_table cfg connectOk st).snd.openConns = st.openConns
    ∨ (create_db_table cfg connectOk st).snd.openConns = st.nextConnId :: st.openConns := by
  unfold create_db_table
  rcases gdc_cases cfg connectOk st with h | h | h <;> simp only [h]
  · exact Or.inl trivial
  · exact Or.inl trivial
  · rcases gdc_cases cfg connectOk
      { st with connAttempts := st.connAttempts + 1,
                nextConnId := st.nextConnId + 1,
                openConns := st.nextConnId :: st.openConns } with h2 | h2 | h2 <;>
      simp only [h2] <;> simp [closeConn]

/-- Running the INSERT changes only the rows and the id counter. -/
lemma insertRow_conns (p : Payload) (st : St) :
    (insertRow p st).snd.openConns = st.openConns := by
  unfold insertRow
  rcases p.title with _ | t <;> rcases p.date with _ | dstr <;> simp
  rcases parseDate dstr with _ | d <;> simp

/-- insert_data_into_db closes its own connection on success and failure; the
only connection possibly left open is the line-87 one of create_db_table. -/
lemma insert_conns (p : Payload) (cfg : Config) (connectOk : Nat → Bool) (st : St) :
    (insert_data_into_db p cfg connectOk st).snd.openConns = st.openConns
    ∨ (insert_data_into_db p cfg connectOk st).snd.openConns
        = st.nextConnId :: st.openConns := by
  have hco := create_db_table_conns cfg connectOk st
  unfold insert_data_into_db
  rcases hc : create_db_table cfg connectOk st with ⟨r1, st1⟩
  rw [hc] at hco
  cases r1 with
  | error e => exact hco
  | ok u =>
    rcases gdc_cases cfg connectOk st1 with h2 | h2 | h2 <;> simp only [h2]
    · exact hco
    · exact hco
    · rcases hr : insertRow p
        { st1 with connAttempts := st1.connAttempts + 1,
                   nextConnId := st1.nextConnId + 1,
                   openConns := st1.nextConnId :: st1.openConns } with ⟨r2, st3⟩
      have hrc : st3.openConns = st1.nextConnId :: st1.openConns := by
        have hx := insertRow_conns p
          { st1 with connAttempts := st1.connAttempts + 1,
                     nextConnId := st1.nextConnId + 1,
                     openConns := st1.nextConnId :: st1.openConns }
        rw [hr] at hx
        simpa using hx
      simp only [closeConn, hrc, List.erase_cons_head]
      exact hco

/-- fetch_data_from_db closes its own connection in the finally block; the
only connection possibly left open is the line-87 one of create_db_table. -/
lemma fetch_conns (cfg : Config) (connectOk : Nat → Bool) (st : St) :
    (fetch_data_from_db cfg connectOk st).snd.openConns = st.openConns
    ∨ (fetch_data_from_db cfg connectOk st).snd.openConns
        = st.nextConnId :: st.openConns := by
  have hco := create_db_table_conns cfg connectOk st
  unfold fetch_data_from_db
  rcases hc : create_db_table cfg connectOk st with ⟨r1, st1⟩
  rw [hc] at hco
  cases r1 with
  | error e => exact hco
  | ok u =>
    rcases gdc_cases cfg connectOk st1 with h2 | h2 | h2 <;> simp only [h2]
    · exact hco
    · exact hco
    · have hnone : parseSelectList selectListTokens = none := by decide
      simp only [hnone, closeConn, List.erase_cons_head]
      exact hco

/-- create_db_table either succeeds or fails with an exception that is not a
NotImplementedError. -/
lemma create_db_table_not_nie (cfg : Config) (connectOk : Nat → Bool) (st : St) :
    (∃ st1, create_db_table cfg connectOk st = (Except.ok (), st1))
    ∨ (∃ e st1, create_db_table cfg connectOk st = (Except.error e, st1)
        ∧ excIsNotImplemented e = false) := by
  unfold create_db_table
  rcases gdc_cases cfg connectOk st with h | h | h <;> simp only [h]
  · exact Or.inr ⟨_, _, rfl, rfl⟩
  · exact Or.inr ⟨_, _, rfl, rfl⟩
  · rcases gdc_cases cfg connectOk
      { st with connAttempts := st.connAttempts + 1,
                nextConnId := st.nextConnId + 1,
                openConns := st.nextConnId :: st.openConns } with h2 | h2 | h2 <;>
      simp only [h2]
    · exact Or.inr ⟨_, _, rfl, rfl⟩
    · exact Or.inr ⟨_, _, rfl, rfl⟩
    · exact Or.inl ⟨_, rfl⟩

/-- fetch_data_from_db always fails, and never with a NotImplementedError:
its possible exceptions are the two connection-provisioning errors, the
RuntimeError wrapper of create_db_table, and the ProgrammingError of the
unparseable SELECT statement. -/
lemma fetch_err (cfg : Config) (connectOk : Nat → Bool) (st : St) :
    ∃ e st1, fetch_data_from_db cfg connectOk st = (Except.error e, st1)
      ∧ excIsNotImplemented e = false := by
  unfold fetch_data_from_db
  rcases create_db_table_not_nie cfg connectOk st with ⟨st1, hc⟩ | ⟨e, st1, hc, hn⟩ <;>
    simp only [hc]
  · rcases gdc_cases cfg connectOk st1 with h2 | h2 | h2 <;> simp only [h2]
    · exact ⟨_, _, rfl, rfl⟩
    · exact ⟨_, _, rfl, rfl⟩
    · have hnone : parseSelectList selectListTokens = none := by decide
      simp only [hnone]
      exact ⟨_, _, rfl, rfl⟩
  · exact ⟨_, _, rfl, hn⟩

/-- C1: evaluating the code at the failing input. POST /events with title
Launch and date 2024-07-01 under a complete configuration returns 201, the
Schema Ensurer has run (the table exists) and exactly one row matching the
payload is inserted, with the omitted optional fields stored as null; but the
subsequent List fails with a 500 (its SELECT statement does not parse), so no
list containing the created record is ever produced, contrary to the claim. -/
theorem C1_create_then_list :
    (create_event (some launchPayload) goodCfg okAll st0).fst
      = { status := 201, body := Body.messageObj "Event created successfully" }
    ∧ (create_event (some launchPayload) goodCfg okAll st0).snd.rows
      = [{ id := 1, title := "Launch", description := none, image_url := none,
           date := some ⟨2024, 7, 1⟩, location := none }]
    ∧ (create_event (some launchPayload) goodCfg okAll st0).snd.tableExists = true
    ∧ (list_events goodCfg okAll
        (create_event (some launchPayload) goodCfg okAll st0).snd).fst.status = 500 := by
  exact ⟨rfl, rfl, rfl, rfl⟩

/-- C2: a POST /events request whose parsed body has a missing or empty title,
or a missing or empty date, yields exactly the 400 response with the
missing-required-fields error body, and the state, in particular the events
table, is unchanged. -/
theorem C2_missing_fields_400 (p : Payload) (cfg : Config) (connectOk : Nat → Bool)
    (st : St) (h : truthy p.title = false ∨ truthy p.date = false) :
    create_event (some p) cfg connectOk st
      = ({ status := 400, body := Body.errObj missingFieldsMsg }, st) := by
  unfold create_event
  rcases h with h | h <;> simp [h]

/-- C2 witness: the theorem applied to a payload with no title. -/
theorem C2_missing_fields_400_witness :
    truthy noTitlePayload.title = false
    ∧ create_event (some noTitlePayload) goodCfg okAll st0
        = ({ status := 400, body := Body.errObj missingFieldsMsg }, st0) :=
  ⟨rfl, C2_missing_fields_400 noTitlePayload goodCfg okAll st0 (Or.inl rfl)⟩

/-- C3: the select list of the List query, as written in the source, does not
parse under the MySQL select-list grammar (the missing comma makes the
location identifier follow a completed alias), while the intended list with
the comma restored parses to the six columns; consequently a List over a
populated table returns a 500 instead of the sorted rows. -/
theorem C3_select_list_syntax_error :
    parseSelectList selectListTokens = none
    ∧ parseSelectList intendedSelectTokens
      = some [⟨"id", none⟩, ⟨"title", none⟩, ⟨"description", none⟩, ⟨"image_url", none⟩,
              ⟨"DATE_FORMAT(date, %a, %d %b %Y 00:00:00 GMT)", some "date"⟩,
              ⟨"location", none⟩]
    ∧ (list_events goodCfg okAll
        { st0 with tableExists := true,
                   rows := [{ id := 1, title := "A", description := none, image_url := none,
                              date := some ⟨2024, 5, 1⟩, location := none },
                            { id := 2, title := "B", description := none, image_url := none,
                              date := some ⟨2024, 6, 1⟩, location := none }],
                   nextId := 3 }).fst.status = 500 := by
  exact ⟨rfl, rfl, rfl⟩

/-- C4: the DATE_FORMAT expression of the query does render a stored
2024-06-15 as the claimed fixed-format string and renders NULL as NULL (shown
also on the 2024-07-01 example of the spec), but no record of a List response
ever carries such a rendering, because the List query itself fails: on a
table holding a dated row, GET /events returns a 500. -/
theorem C4_date_format_rendering :
    renderDate (some ⟨2024, 6, 15⟩) = some "Sat, 15 Jun 2024 00:00:00 GMT"
    ∧ renderDate (some ⟨2024, 7, 1⟩) = some "Mon, 01 Jul 2024 00:00:00 GMT"
    ∧ renderDate none = none
    ∧ (list_events goodCfg okAll
        { st0 with tableExists := true,
                   rows := [{ id := 1, title := "X", description := none, image_url := none,
                              date := some ⟨2024, 6, 15⟩, location := none }],
                   nextId := 2 }).fst.status = 500 := by
  exact ⟨rfl, rfl, rfl, rfl⟩

/-- C5: GET /health returns 200 with the healthy status body in every program
state, for every configuration and every database availability, and leaves
the state untouched. -/
theorem C5_health_always_200 (cfg : Config) (connectOk : Nat → Bool) (st : St) :
    health cfg connectOk st = ({ status := 200, body := Body.statusObj "healthy" }, st) :=
  rfl

/-- C6: a POST /events request with an absent or unparseable body behaves
exactly as one whose body is the empty JSON object, and in every state and
configuration it yields the 400 missing-required-fields response, never a
parse-error response. -/
theorem C6_lenient_body_parse (cfg : Config) (connectOk : Nat → Bool) (st : St) :
    create_event none cfg connectOk st = create_event (some emptyPayload) cfg connectOk st
    ∧ (create_event none cfg connectOk st).fst
        = { status := 400, body := Body.errObj missingFieldsMsg } :=
  ⟨rfl, rfl⟩

/-- C7: with any required configuration value absent, connection provisioning
fails with an EnvironmentError whose message lists every missing key, the
connection-attempt counter does not move (no connect is attempted), every
falsy required variable is in the reported list, and each of the three
persistence-dependent handlers answers 500 rather than crashing. -/
theorem C7_missing_config_500 (cfg : Config) (connectOk : Nat → Bool) (st : St)
    (h : missingEnv cfg ≠ []) :
    (get_db_connection cfg connectOk st).fst
        = Except.error (Exc.environmentError
            ("Missing environment variables: " ++ String.intercalate ", " (missingEnv cfg)))
    ∧ (get_db_connection cfg connectOk st).snd.connAttempts = st.connAttempts
    ∧ (∀ v ∈ required_vars, envFalsy (envGet cfg v) = true → v ∈ missingEnv cfg)
    ∧ (create_event (some launchPayload) cfg connectOk st).fst.status = 500
    ∧ (list_events cfg connectOk st).fst.status = 500
    ∧ (get_data cfg connectOk st).fst.status = 500 := by
  have hb : (missingEnv cfg).isEmpty = false := by
    cases hm : missingEnv cfg with
    | nil => exact absurd hm h
    | cons a l => rfl
  have hgdc : get_db_connection cfg connectOk st
      = (Except.error (Exc.environmentError
          ("Missing environment variables: " ++ String.intercalate ", " (missingEnv cfg))), st) := by
    unfold get_db_connection
    simp [hb]
  have hcdt : create_db_table cfg connectOk st
      = (Except.error (Exc.environmentError
          ("Missing environment variables: " ++ String.intercalate ", " (missingEnv cfg))), st) := by
    unfold create_db_table
    simp only [hgdc]
  refine ⟨by rw [hgdc], by rw [hgdc], ?_, ?_, ?_, ?_⟩
  · intro v hv hf
    exact List.mem_filter.mpr ⟨hv, hf⟩
  · have hcond : (truthy launchPayload.title && truthy launchPayload.date) = true := by decide
    unfold create_event insert_data_into_db
    simp [hcond, hcdt]
  · unfold list_events fetch_data_from_db
    simp [hcdt]
  · unfold get_data fetch_data_from_db
    simp [hcdt]

/-- C7 witness: the theorem applied to the empty configuration. -/
theorem C7_missing_config_500_witness :
    missingEnv noCfg ≠ []
    ∧ (list_events noCfg okAll st0).fst.status = 500 :=
  ⟨by decide, (C7_missing_config_500 noCfg okAll st0 (by decide)).2.2.2.2.1⟩

/-- C8 counterexample: a successful Schema Ensurer run at the initial state
under a complete configuration terminates with the connection acquired at
line 87 still open, so it is false that every repository call releases every
connection it opened on every exit path. -/
theorem C8_release_all_cex :
    (create_db_table goodCfg okAll st0).fst = Except.ok ()
    ∧ (create_db_table goodCfg okAll st0).snd.openConns = [0] :=
  ⟨rfl, rfl⟩

/-- C8 amended: every connection a repository call opens is released on every
exit path except one: the connection acquired on line 87 of create_db_table
(id equal to the nextConnId of the entry state), which both Create and List
leak exactly once per call whenever its acquisition succeeds; no connection
is pooled or reused across calls (every acquisition returns a fresh id). -/
theorem C8_connection_discipline (cfg : Config) (connectOk : Nat → Bool) (st : St)
    (p : Payload) :
    ((create_db_table cfg connectOk st).snd.openConns = st.openConns
      ∨ (create_db_table cfg connectOk st).snd.openConns = st.nextConnId :: st.openConns)
    ∧ ((insert_data_into_db p cfg connectOk st).snd.openConns = st.openConns
      ∨ (insert_data_into_db p cfg connectOk st).snd.openConns
          = st.nextConnId :: st.openConns)
    ∧ ((fetch_data_from_db cfg connectOk st).snd.openConns = st.openConns
      ∨ (fetch_data_from_db cfg connectOk st).snd.openConns
          = st.nextConnId :: st.openConns) :=
  ⟨create_db_table_conns cfg connectOk st, insert_conns p cfg connectOk st,
   fetch_conns cfg connectOk st⟩

/-- C9 counterexample: the per-row date-formatting line is not effect-free
dead code. As a Python statement its annotation target is a string literal,
which CPython rejects at byte-compilation, so the module containing it fails
to load and observable behaviour changes: with the line present not even
GET /health is served, while with the line removed the module loads. -/
theorem C9_formatting_line_dead_cex :
    moduleLoads fetchBodyStmts = false
    ∧ moduleLoads fetchBodyStmtsWithoutLine = true
    ∧ serveHealth fetchBodyStmts goodCfg okAll st0
        ≠ serveHealth fetchBodyStmtsWithoutLine goodCfg okAll st0 := by
  decide

/-- C9 amended: line 143 is not merely unreachable: it is an ill-formed
Python statement (a string literal is an illegal annotation target), the
module containing it does not load, and every operation is thereby affected;
removing the line restores a loadable module. In particular the formatting
the line suggests is never applied at runtime. -/
theorem C9_formatting_line_syntax_error :
    validAnnTarget (AnnTarget.strLitT "date") = false
    ∧ stmtValid line143 = false
    ∧ moduleLoads fetchBodyStmts = false
    ∧ moduleLoads fetchBodyStmtsWithoutLine = true
    ∧ serveHealth fetchBodyStmts goodCfg okAll st0 = none
    ∧ serveHealth fetchBodyStmtsWithoutLine goodCfg okAll st0
        = some (health goodCfg okAll st0) := by
  decide

/-- C10: the 501 branch of GET /events is unreachable: no function reachable
from the handler ever raises NotImplementedError, so the fetch outcome never
carries one and the handler answers 500 (never 501) in every state, for
every configuration and every database availability. -/
theorem C10_no_501 (cfg : Config) (connectOk : Nat → Bool) (st : St) :
    resultNIE (fetch_data_from_db cfg connectOk st) = false
    ∧ (list_events cfg connectOk st).fst.status = 500 := by
  obtain ⟨e, st1, hf, hn⟩ := fetch_err cfg connectOk st
  constructor
  · rw [hf]
    exact hn
  · unfold list_events
    rw [hf]
    cases e with
    | environmentError m => rfl
    | connectionError m => rfl
    | runtimeError m => rfl
    | programmingError m => rfl
    | notImplementedError m => simp [excIsNotImplemented] at hn

end EventsBackend
